import Mathlib

/-!
# Verification of the Zendesk MCP server (`src/index.ts`, `src/zendesk-client.ts`)

A shallow embedding of the server's pure logic:

* JS string helpers (`toLowerCase`, `includes`) over ASCII data;
* the ticket record (`ZendeskTicket` in `zendesk-client.ts`);
* the `search_feature_feedback` classification (`categorized`, `index.ts:378-392`);
* query building for `search_feature_feedback` and `getRecentTickets`
  (dates are abstracted to epoch-day counts; `toISOString().split('T')[0]`
  becomes a civil-from-days `YYYY-MM-DD` formatter);
* the HTTP error policy of `ZendeskClient.request`;
* the tool dispatcher's catch-all envelope (`index.ts:479-493`);
* the `get_ticket` handler with an explicit client-call trace.

Effectful calls (`fetch`, client methods) are modelled by explicit state
passing: a queue of pending HTTP responses, and a trace of client calls.
-/

namespace Zendesk

/-- `charsStartWith s p` is true when `p` is an initial run of `s`
(character-list version of JS `String.prototype.startsWith`). -/
def charsStartWith : List Char → List Char → Bool
  | _, [] => true
  | [], _ :: _ => false
  | c :: cs, p :: ps => c == p && charsStartWith cs ps

/-- `charsContain s p` is true when `p` occurs contiguously inside `s`. -/
def charsContain : List Char → List Char → Bool
  | [], pat => pat.isEmpty
  | c :: cs, pat => charsStartWith (c :: cs) pat || charsContain cs pat

/-- JS `s.includes(pat)`: substring containment. -/
def jsIncludes (s pat : String) : Bool :=
  charsContain s.data pat.data

/-- JS `s.toLowerCase()` (the source only lowercases ASCII tag/subject text,
where `Char.toLower` agrees with JS), applied characterwise. -/
def jsToLower (s : String) : String :=
  String.mk (s.data.map Char.toLower)

/-- `ZendeskTicket` from `zendesk-client.ts` (custom fields' `value: any`
modelled as strings, the optional `via.channel` as `Option String`). -/
structure ZendeskTicket where
  id : Nat
  subject : String
  description : String
  status : String
  priority : String
  created_at : String
  updated_at : String
  tags : List String
  custom_fields : List (Nat × String) := []
  via : Option String := none
deriving Repr, DecidableEq

/-- Predicate of the `bug_reports` filter in `categorized`
(`index.ts:379-383`): some tag contains "bug", or the subject contains
"bug" or "issue", all case-insensitively. -/
def isBugReport (t : ZendeskTicket) : Bool :=
  t.tags.any (fun tag => jsIncludes (jsToLower tag) "bug")
    || jsIncludes (jsToLower t.subject) "bug"
    || jsIncludes (jsToLower t.subject) "issue"

/-- Predicate of the `feature_requests` filter (`index.ts:384-388`). -/
def isFeatureRequest (t : ZendeskTicket) : Bool :=
  t.tags.any (fun tag =>
      jsIncludes (jsToLower tag) "feature" || jsIncludes (jsToLower tag) "enhancement")
    || jsIncludes (jsToLower t.subject) "feature request"
    || jsIncludes (jsToLower t.subject) "enhancement"

/-- Predicate of the `support_questions` filter (`index.ts:389-391`):
no tag contains "bug" or "feature". -/
def isSupportQuestion (t : ZendeskTicket) : Bool :=
  !(t.tags.any (fun tag =>
      jsIncludes (jsToLower tag) "bug" || jsIncludes (jsToLower tag) "feature"))

/-- The three buckets produced by `categorized` (`index.ts:378-392`). -/
structure Categorized where
  bug_reports : List ZendeskTicket
  feature_requests : List ZendeskTicket
  support_questions : List ZendeskTicket
deriving Repr, DecidableEq

/-- `categorized` (`index.ts:378-392`): three independent `filter`s over the
ticket search results. -/
def categorize (results : List ZendeskTicket) : Categorized :=
  { bug_reports := results.filter isBugReport
    feature_requests := results.filter isFeatureRequest
    support_questions := results.filter isSupportQuestion }

/-! ## Dates

Wall-clock time is abstracted to a count of days since the Unix epoch
(`new Date()` becomes a `today : Int` parameter; `setDate(getDate() - n)`
becomes subtraction of day counts). `toISOString().split('T')[0]` is the
proleptic-Gregorian `YYYY-MM-DD` rendering of that day count, implemented
below by the standard civil-from-days conversion. -/

/-- Left-pad the decimal rendering of `n` with zeros to `w` digits. -/
def padNat (w n : Nat) : String :=
  let s := toString n
  String.mk (List.replicate (w - s.length) '0') ++ s

/-- Convert a day count since 1970-01-01 to a civil `(year, month, day)`
(proleptic Gregorian, the calendar behind JS `toISOString`). -/
def civilFromDays (z : Int) : Int × Nat × Nat :=
  let z' := z + 719468
  let era : Int := (if 0 ≤ z' then z' else z' - 146096) / 146097
  let doe : Nat := (z' - era * 146097).toNat
  let yoe : Nat := (doe - doe / 1460 + doe / 36524 - doe / 146096) / 365
  let doy : Nat := doe - (365 * yoe + yoe / 4 - yoe / 100)
  let mp : Nat := (5 * doy + 2) / 153
  let d : Nat := doy - (153 * mp + 2) / 5 + 1
  let m : Nat := if mp < 10 then mp + 3 else mp - 9
  ((yoe : Int) + era * 400 + (if m ≤ 2 then 1 else 0), m, d)

/-- `YYYY-MM-DD` rendering of a day count: the `toISOString().split('T')[0]`
of the source, for dates in the Common Era. -/
def fmtYMD (z : Int) : String :=
  let (y, m, d) := civilFromDays z
  padNat 4 y.toNat ++ "-" ++ padNat 2 m ++ "-" ++ padNat 2 d

/-! ## Client request and search plumbing (`zendesk-client.ts`) -/

/-- An HTTP response as seen by `ZendeskClient.request`: status and body. -/
structure HttpResponse where
  status : Nat
  body : String
deriving Repr, DecidableEq

/-- `response.ok` of the fetch API: status in the 2xx range. -/
def responseOk (r : HttpResponse) : Bool :=
  200 ≤ r.status && r.status < 300

/-- `ZendeskClient.request` (`zendesk-client.ts:59-81`) against a queue of
pending responses: consume exactly one response; a non-2xx status throws
`Zendesk API error (<status>): <body>` (modelled as `Except.error`), a 2xx
status yields the body. The returned list is the queue after the call, so
the number of responses consumed is visible to theorems. -/
def request (pending : List HttpResponse) :
    Except String String × List HttpResponse :=
  match pending with
  | [] => (Except.error "fetch failed", [])
  | r :: rest =>
    if responseOk r then
      (Except.ok r.body, rest)
    else
      (Except.error ("Zendesk API error (" ++ toString r.status ++ "): " ++ r.body), rest)

/-- The query-string parameters `searchTickets` passes to `/search.json`. -/
structure SearchParams where
  query : String
  per_page : Nat
  page : Nat
deriving Repr, DecidableEq

/-- `SearchResult<ZendeskTicket>` from `zendesk-client.ts`. -/
structure TicketSearchResult where
  results : List ZendeskTicket
  count : Nat
  next_page : Option String
  previous_page : Option String
deriving Repr, DecidableEq

/-- `ZendeskClient.searchTickets` (`zendesk-client.ts:90-103`): prefix the
query with the fixed `type:ticket ` scope and call the search endpoint
(abstracted as `api : SearchParams → TicketSearchResult`). -/
def searchTickets (api : SearchParams → TicketSearchResult)
    (query : String) (page : Nat) (perPage : Nat) : TicketSearchResult :=
  api { query := "type:ticket " ++ query, per_page := perPage, page := page }

/-- `ZendeskClient.getRecentTickets` (`zendesk-client.ts:181-187`): compute
the 30-days-ago threshold, format it `YYYY-MM-DD`, and delegate to
`searchTickets` with a `created>` filter. -/
def getRecentTickets (api : SearchParams → TicketSearchResult)
    (today : Int) (page : Nat) (perPage : Nat) : TicketSearchResult :=
  let thirtyDaysAgo := today - 30
  let dateStr := fmtYMD thirtyDaysAgo
  searchTickets api ("created>" ++ dateStr) page perPage

/-- Modelled from the spec: `getRecentTickets`'s documented threshold,
"UTC-today minus 30 days, formatted `YYYY-MM-DD`". -/
def recentThresholdSpec (today : Int) : String :=
  fmtYMD (today - 30)

/-! ## `search_feature_feedback` query building (`index.ts:361-369`) -/

/-- The date threshold string of `search_feature_feedback`
(`index.ts:361-363`): today minus `days_back` days, `YYYY-MM-DD`. -/
def featureFeedbackDateStr (today : Int) (days_back : Int) : String :=
  fmtYMD (today - days_back)

/-- The ticket query built by `search_feature_feedback` (`index.ts:366-369`):
`"<feature_name> created><threshold>"`, with `" status<solved"` appended
when `include_solved` is false. -/
def featureFeedbackTicketQuery (feature_name : String) (include_solved : Bool)
    (days_back : Int) (today : Int) : String :=
  let dateStr := featureFeedbackDateStr today days_back
  let base := feature_name ++ " created>" ++ dateStr
  if include_solved then base else base ++ " status<solved"

/-- Modelled from the spec: the query of §4.2 steps 1-2, written from the
spec's words to be compared with the source-derived builder. -/
def featureFeedbackTicketQuerySpec (feature_name : String) (include_solved : Bool)
    (days_back : Int) (today : Int) : String :=
  feature_name ++ " created>" ++ fmtYMD (today - days_back)
    ++ (if include_solved then "" else " status<solved")

/-! ## Tool dispatcher (`index.ts:214-494`) -/

/-- The response envelope the dispatcher returns: a list of text blocks and
the `isError` flag (absent in the success branches of the source, i.e.
`false`). -/
structure Envelope where
  content : List String
  isError : Bool := false
deriving Repr, DecidableEq

/-- The six tool names of the static `TOOLS` catalog (`index.ts:37-193`),
the cases of the dispatch `switch`. -/
def knownTools : List String :=
  ["search_tickets", "get_ticket", "search_articles", "get_article",
   "search_feature_feedback", "get_tickets_by_tag"]

/-- The `CallToolRequestSchema` handler (`index.ts:214-494`): the `switch`
runs the matching case's handler (a fallible computation producing the JSON
text), the `default` case throws `Unknown tool: <name>`, and the
surrounding `try/catch` turns any thrown error into an envelope whose
single text block is `Error: <message>` with `isError: true`. The function
is total: no error escapes it. -/
def dispatch (handler : String → String → Except String String)
    (name : String) (args : String) : Envelope :=
  let r : Except String String :=
    if name ∈ knownTools then handler name args
    else Except.error ("Unknown tool: " ++ name)
  match r with
  | Except.ok text => { content := [text] }
  | Except.error msg => { content := ["Error: " ++ msg], isError := true }

/-! ## `get_ticket` handler with a client-call trace (`index.ts:253-293`) -/

/-- A comment record (`getTicketComments` element type). -/
structure Comment where
  id : Nat
  body : String
  author_id : Nat
  created_at : String
  public : Bool
deriving Repr, DecidableEq

/-- One call issued to the Zendesk client, for call-count reasoning. -/
inductive ClientCall where
  | getTicket (id : Nat)
  | getTicketComments (id : Nat)
deriving Repr, DecidableEq

/-- A stubbed client: pure functions answering the two calls `get_ticket`
can make. -/
structure StubClient where
  ticketFor : Nat → ZendeskTicket
  commentsFor : Nat → List Comment

/-- `zendeskClient.getTicket` against the stub, appending to the trace. -/
def callGetTicket (c : StubClient) (id : Nat) (trace : List ClientCall) :
    ZendeskTicket × List ClientCall :=
  (c.ticketFor id, trace ++ [ClientCall.getTicket id])

/-- `zendeskClient.getTicketComments` against the stub, appending to the
trace. -/
def callGetTicketComments (c : StubClient) (id : Nat) (trace : List ClientCall) :
    List Comment × List ClientCall :=
  (c.commentsFor id, trace ++ [ClientCall.getTicketComments id])

/-- The payload the `get_ticket` case serializes: the ticket's trimmed
fields and the (possibly empty) comments list. -/
structure GetTicketPayload where
  ticket : ZendeskTicket
  comments : List Comment
deriving Repr, DecidableEq

/-- The `get_ticket` case (`index.ts:253-293`): fetch the ticket, start
with `comments = []`, and only when `include_comments` is true fetch the
comments; return the merged payload together with the calls issued. -/
def getTicketCase (c : StubClient) (ticket_id : Nat) (include_comments : Bool) :
    GetTicketPayload × List ClientCall :=
  let (ticket, trace) := callGetTicket c ticket_id []
  let comments : List Comment := []
  let (comments, trace) :=
    if include_comments then callGetTicketComments c ticket_id trace
    else (comments, trace)
  ({ ticket := ticket, comments := comments }, trace)

/-! ## `search_tickets` output shape (`index.ts:219-251`) -/

/-- The trimmed ticket record `search_tickets` emits per result. -/
structure TrimmedSearchTicket where
  id : Nat
  subject : String
  description : String
  status : String
  priority : String
  created_at : String
  updated_at : String
  tags : List String
  channel : Option String
deriving Repr, DecidableEq

/-- The field projection of `index.ts:233-243`. -/
def trimSearchTicket (t : ZendeskTicket) : TrimmedSearchTicket :=
  { id := t.id, subject := t.subject, description := t.description,
    status := t.status, priority := t.priority, created_at := t.created_at,
    updated_at := t.updated_at, tags := t.tags, channel := t.via }

/-- The reshaped `search_tickets` response body (`index.ts:227-244`). -/
structure SearchTicketsOutput where
  total_count : Nat
  page : Nat
  per_page : Nat
  has_more : Bool
  tickets : List TrimmedSearchTicket
deriving Repr, DecidableEq

/-- The `search_tickets` case (`index.ts:219-251`): call
`zendeskClient.searchTickets` and map each result through the trim. -/
def searchTicketsCase (api : SearchParams → TicketSearchResult)
    (query : String) (page : Nat) (per_page : Nat) : SearchTicketsOutput :=
  let results := searchTickets api query page per_page
  { total_count := results.count, page := page, per_page := per_page,
    has_more := results.next_page.isSome,
    tickets := results.results.map trimSearchTicket }

/-! ## `search_feature_feedback` per-bucket trims (`index.ts:409-431`) -/

/-- A JSON scalar/array value, enough for the trimmed ticket fields. -/
inductive JVal where
  | num (n : Nat)
  | str (s : String)
  | arr (xs : List String)
deriving Repr, DecidableEq

/-- The trim applied to `bug_reports` and `feature_requests` entries
(`index.ts:409-416` and `417-424`): id, subject, status, priority,
created_at, tags. -/
def trimWithPriority (t : ZendeskTicket) : List (String × JVal) :=
  [("id", JVal.num t.id), ("subject", JVal.str t.subject),
   ("status", JVal.str t.status), ("priority", JVal.str t.priority),
   ("created_at", JVal.str t.created_at), ("tags", JVal.arr t.tags)]

/-- The trim applied to `support_questions` entries (`index.ts:425-431`):
id, subject, status, created_at, tags — no priority. -/
def trimNoPriority (t : ZendeskTicket) : List (String × JVal) :=
  [("id", JVal.num t.id), ("subject", JVal.str t.subject),
   ("status", JVal.str t.status), ("created_at", JVal.str t.created_at),
   ("tags", JVal.arr t.tags)]

/-- The three trimmed bucket lists of the `search_feature_feedback`
response body. -/
structure FeedbackBuckets where
  bug_reports : List (List (String × JVal))
  feature_requests : List (List (String × JVal))
  support_questions : List (List (String × JVal))
deriving Repr, DecidableEq

/-- Classification plus the per-bucket trims of `index.ts:409-431`. -/
def feedbackBuckets (ts : List ZendeskTicket) : FeedbackBuckets :=
  let c := categorize ts
  { bug_reports := c.bug_reports.map trimWithPriority
    feature_requests := c.feature_requests.map trimWithPriority
    support_questions := c.support_questions.map trimNoPriority }

/-! ## Concrete inputs used by witnesses and counterexamples -/

/-- The first ticket of the spec's example scenario (§8):
`{id:1, subject:"App crashes on login", tags:["bug","mobile"], status:"open"}`. -/
def ticketCrash : ZendeskTicket :=
  { id := 1, subject := "App crashes on login", description := "", status := "open",
    priority := "high", created_at := "2026-09-20", updated_at := "2026-09-21",
    tags := ["bug", "mobile"] }

/-- The second ticket of the spec's example scenario (§8):
`{id:2, subject:"Please add dark mode", tags:["enhancement"], status:"open"}`. -/
def ticketDarkMode : ZendeskTicket :=
  { id := 2, subject := "Please add dark mode", description := "", status := "open",
    priority := "normal", created_at := "2026-09-22", updated_at := "2026-09-23",
    tags := ["enhancement"] }

/-- A stubbed search endpoint returning two results regardless of query. -/
def stubSearchApi : SearchParams → TicketSearchResult :=
  fun _ =>
    { results := [ticketCrash, ticketDarkMode], count := 2,
      next_page := none, previous_page := none }

/-- A stubbed tool handler whose every call throws. -/
def failingHandler : String → String → Except String String :=
  fun _ _ => Except.error "request to Zendesk failed"

/-- A stubbed client for the `get_ticket` trace theorems. -/
def stubClient : StubClient :=
  { ticketFor := fun i => { ticketCrash with id := i }
    commentsFor := fun _ =>
      [{ id := 10, body := "first reply", author_id := 7,
         created_at := "2026-09-20", public := true }] }

/-! ## Helper lemmas -/

theorem charsStartWith_append_self (p rest : List Char) :
    charsStartWith (p ++ rest) p = true := by
  induction p with
  | nil => simp [charsStartWith]
  | cons c cs ih => simp [charsStartWith, ih]

theorem charsContain_nil_pat (s : List Char) : charsContain s [] = true := by
  cases s <;> simp [charsContain, charsStartWith, List.isEmpty]

theorem charsContain_append_self (p rest : List Char) :
    charsContain (p ++ rest) p = true := by
  cases p with
  | nil => simpa using charsContain_nil_pat rest
  | cons c cs =>
    show charsContain (c :: (cs ++ rest)) (c :: cs) = true
    simp [charsContain, charsStartWith, charsStartWith_append_self]

theorem charsContain_append_left (pre s pat : List Char)
    (h : charsContain s pat = true) : charsContain (pre ++ s) pat = true := by
  induction pre with
  | nil => simpa using h
  | cons c cs ih => simp [charsContain, ih]

/-- A string occurring between two others is found by JS `includes`. -/
theorem jsIncludes_middle (a b c : String) : jsIncludes (a ++ (b ++ c)) b = true := by
  simp only [jsIncludes, String.data_append]
  exact charsContain_append_left _ _ _ (charsContain_append_self b.data c.data)

/-- Every ticket satisfies at least one of the three bucket predicates. -/
theorem classify_total (t : ZendeskTicket) :
    isBugReport t = true ∨ isFeatureRequest t = true ∨ isSupportQuestion t = true := by
  by_cases h :
      t.tags.any (fun tag =>
        jsIncludes (jsToLower tag) "bug" || jsIncludes (jsToLower tag) "feature") = true
  · rw [List.any_eq_true] at h
    obtain ⟨tag, htag, hor⟩ := h
    rcases Bool.or_eq_true_iff.mp hor with hb | hf
    · left
      have hany : t.tags.any (fun tag => jsIncludes (jsToLower tag) "bug") = true :=
        List.any_eq_true.mpr ⟨tag, htag, hb⟩
      simp [isBugReport, hany]
    · right; left
      have hany : t.tags.any (fun tag =>
          jsIncludes (jsToLower tag) "feature"
            || jsIncludes (jsToLower tag) "enhancement") = true :=
        List.any_eq_true.mpr ⟨tag, htag, by simp [hf]⟩
      simp [isFeatureRequest, hany]
  · right; right
    simp only [Bool.not_eq_true] at h
    simp [isSupportQuestion, h]

theorem mem_bug_reports {ts : List ZendeskTicket} {t : ZendeskTicket}
    (h : t ∈ ts) (hp : isBugReport t = true) :
    t ∈ (categorize ts).bug_reports :=
  List.mem_filter.mpr ⟨h, hp⟩

theorem mem_feature_requests {ts : List ZendeskTicket} {t : ZendeskTicket}
    (h : t ∈ ts) (hp : isFeatureRequest t = true) :
    t ∈ (categorize ts).feature_requests :=
  List.mem_filter.mpr ⟨h, hp⟩

theorem mem_support_questions {ts : List ZendeskTicket} {t : ZendeskTicket}
    (h : t ∈ ts) (hp : isSupportQuestion t = true) :
    t ∈ (categorize ts).support_questions :=
  List.mem_filter.mpr ⟨h, hp⟩

/-- Every ticket of the search results lands in at least one bucket. -/
theorem categorize_mem_union {ts : List ZendeskTicket} {t : ZendeskTicket}
    (h : t ∈ ts) :
    t ∈ (categorize ts).bug_reports ∨ t ∈ (categorize ts).feature_requests
      ∨ t ∈ (categorize ts).support_questions := by
  rcases classify_total t with hp | hp | hp
  · exact Or.inl (mem_bug_reports h hp)
  · exact Or.inr (Or.inl (mem_feature_requests h hp))
  · exact Or.inr (Or.inr (mem_support_questions h hp))

/-- Sanity check of the date rendering at the epoch. -/
theorem fmtYMD_epoch : fmtYMD 0 = "1970-01-01" := by decide

/-- Sanity check of the date rendering after a leap day. -/
theorem fmtYMD_leap : fmtYMD 19783 = "2024-03-01" := by decide

/-! ## Claims -/

/-- C1, counterexample: the claim "each ticket is placed in exactly one of
the three buckets, following first-match precedence" is false for the code:
the dark-mode ticket (tag `enhancement`, which contains neither `bug` nor
`feature`) is placed in both `feature_requests` and `support_questions` by
the two independent filters of `index.ts:384-391`. -/
theorem bucket_overlap_cex :
    ticketDarkMode ∈ (categorize [ticketCrash, ticketDarkMode]).feature_requests
      ∧ ticketDarkMode ∈ (categorize [ticketCrash, ticketDarkMode]).support_questions := by
  decide

/-- C1, amended: the three buckets of `categorized` (`index.ts:378-392`)
are produced by independent filters, not by first-match precedence; every
returned ticket lands in at least one bucket (none is dropped), but a
ticket may appear in more than one bucket. -/
theorem buckets_cover (ts : List ZendeskTicket) (t : ZendeskTicket) (h : t ∈ ts) :
    t ∈ (categorize ts).bug_reports ∨ t ∈ (categorize ts).feature_requests
      ∨ t ∈ (categorize ts).support_questions :=
  categorize_mem_union h

/-- C1, witness: the cover theorem applied to the crash ticket. -/
theorem buckets_cover_witness :
    ticketCrash ∈ (categorize [ticketCrash]).bug_reports
      ∨ ticketCrash ∈ (categorize [ticketCrash]).feature_requests
      ∨ ticketCrash ∈ (categorize [ticketCrash]).support_questions :=
  buckets_cover [ticketCrash] ticketCrash (by decide)

/-- C2, counterexample: on the spec's two-ticket example the code does not
leave `support_questions` empty — the dark-mode ticket's only tag
`enhancement` contains neither `bug` nor `feature`, so the
`support_questions` filter (`index.ts:389-391`) keeps it. -/
theorem example_scenario_cex :
    (categorize [ticketCrash, ticketDarkMode]).support_questions ≠ [] := by
  decide

/-- C2, amended: on the two-ticket example the classification yields
`bug_reports = [ticket 1]`, `feature_requests = [ticket 2]`, and
`support_questions = [ticket 2]` (not empty). -/
theorem example_scenario_buckets :
    (categorize [ticketCrash, ticketDarkMode]).bug_reports = [ticketCrash]
      ∧ (categorize [ticketCrash, ticketDarkMode]).feature_requests = [ticketDarkMode]
      ∧ (categorize [ticketCrash, ticketDarkMode]).support_questions = [ticketDarkMode] := by
  decide

/-- C3: the ticket query built by `search_feature_feedback`
(`index.ts:361-369`) equals the spec's formula — feature name, a `created>`
filter at today minus `days_back` days in `YYYY-MM-DD`, and a trailing
`" status<solved"` exactly when `include_solved` is false. -/
theorem feature_feedback_query_matches_spec (feature_name : String)
    (include_solved : Bool) (days_back today : Int) :
    featureFeedbackTicketQuery feature_name include_solved days_back today
      = featureFeedbackTicketQuerySpec feature_name include_solved days_back today := by
  cases include_solved <;>
    simp [featureFeedbackTicketQuery, featureFeedbackTicketQuerySpec,
      featureFeedbackDateStr, String.append_empty]

/-- C4: `ZendeskClient.request` (`zendesk-client.ts:75-78`) on a non-2xx
response consumes exactly one response from the queue (no retry) and
errors with `Zendesk API error (<status>): <body>`, a message containing
both the numeric status and the raw body. -/
theorem request_error_policy (r : HttpResponse) (rest : List HttpResponse)
    (h : responseOk r = false) :
    request (r :: rest)
        = (Except.error ("Zendesk API error (" ++ toString r.status ++ "): " ++ r.body), rest)
      ∧ jsIncludes ("Zendesk API error (" ++ toString r.status ++ "): " ++ r.body)
          (toString r.status) = true
      ∧ jsIncludes ("Zendesk API error (" ++ toString r.status ++ "): " ++ r.body)
          r.body = true := by
  refine ⟨by simp [request, h], ?_, ?_⟩
  · have := jsIncludes_middle "Zendesk API error (" (toString r.status) ("): " ++ r.body)
    simpa [String.append_assoc] using this
  · have := jsIncludes_middle
      ("Zendesk API error (" ++ toString r.status ++ "): ") r.body ""
    simpa [String.append_assoc, String.append_empty] using this

/-- C4, witness: a simulated 404 with body `Not Found`. -/
theorem request_error_policy_witness :
    request [{ status := 404, body := "Not Found" }]
      = (Except.error "Zendesk API error (404): Not Found", []) :=
  (request_error_policy { status := 404, body := "Not Found" } [] (by decide)).1

/-- C5: the dispatcher (`index.ts:214-494`) never propagates a failure: an
unknown tool name yields the envelope `Error: Unknown tool: <name>` with
`isError` set, and a known tool whose handler throws yields
`Error: <message>` with `isError` set. -/
theorem dispatch_error_envelope (handler : String → String → Except String String)
    (name args : String) :
    (name ∉ knownTools →
      dispatch handler name args
        = { content := ["Error: " ++ ("Unknown tool: " ++ name)], isError := true })
    ∧ (∀ msg, name ∈ knownTools →
        handler name args = Except.error msg →
        dispatch handler name args
          = { content := ["Error: " ++ msg], isError := true }) := by
  constructor
  · intro h
    simp [dispatch, h]
  · intro msg h hmsg
    simp [dispatch, h, hmsg]

/-- C5, witness: the dispatcher applied to an unknown name and to a known
tool with a throwing handler. -/
theorem dispatch_error_envelope_witness :
    dispatch failingHandler "frobnicate" "{}"
        = { content := ["Error: " ++ ("Unknown tool: " ++ "frobnicate")], isError := true }
      ∧ dispatch failingHandler "get_ticket" "{}"
        = { content := ["Error: " ++ "request to Zendesk failed"], isError := true } :=
  ⟨(dispatch_error_envelope failingHandler "frobnicate" "{}").1 (by decide),
   (dispatch_error_envelope failingHandler "get_ticket" "{}").2
     "request to Zendesk failed" (by decide) rfl⟩

/-- C6: `get_ticket` with `include_comments = false` (`index.ts:253-260`)
issues only the single ticket fetch — the call trace is exactly
`[getTicket id]`, so no comments request appears in it — and the returned
payload's comments list is empty. -/
theorem get_ticket_skips_comments (c : StubClient) (ticket_id : Nat) :
    (getTicketCase c ticket_id false).2 = [ClientCall.getTicket ticket_id]
      ∧ (∀ tid, ClientCall.getTicketComments tid ∉ (getTicketCase c ticket_id false).2)
      ∧ (getTicketCase c ticket_id false).1.comments = [] := by
  refine ⟨rfl, ?_, rfl⟩
  intro tid
  simp [getTicketCase, callGetTicket]

/-- C6, witness: the trace facts at the stubbed client and ticket 5. -/
theorem get_ticket_skips_comments_witness :
    (getTicketCase stubClient 5 false).2 = [ClientCall.getTicket 5]
      ∧ ClientCall.getTicketComments 5 ∉ (getTicketCase stubClient 5 false).2 :=
  ⟨(get_ticket_skips_comments stubClient 5).1,
   (get_ticket_skips_comments stubClient 5).2.1 5⟩

/-- C7: `getRecentTickets` (`zendesk-client.ts:181-187`) is
`searchTickets` on the query `created><threshold>` with the threshold the
spec's "UTC-today minus 30 days, formatted YYYY-MM-DD". -/
theorem getRecentTickets_refines_searchTickets
    (api : SearchParams → TicketSearchResult) (today : Int) (page perPage : Nat) :
    getRecentTickets api today page perPage
        = searchTickets api ("created>" ++ recentThresholdSpec today) page perPage
      ∧ fmtYMD (today - 30) = recentThresholdSpec today :=
  ⟨rfl, rfl⟩

/-- C8: the reshaped `search_tickets` output (`index.ts:219-250`) holds one
trimmed record per API result; whenever the API honours the `per_page` cap,
that count equals `min per_page <results returned for the page>`. -/
theorem search_tickets_count_min (api : SearchParams → TicketSearchResult)
    (query : String) (page per_page : Nat)
    (h : (searchTickets api query page per_page).results.length ≤ per_page) :
    (searchTicketsCase api query page per_page).tickets.length
      = min per_page (searchTickets api query page per_page).results.length := by
  simp [searchTicketsCase, Nat.min_eq_right h]

/-- C8, witness: a stubbed API returning two results under `per_page = 50`. -/
theorem search_tickets_count_min_witness :
    (searchTicketsCase stubSearchApi "login" 1 50).tickets.length
      = min 50 (searchTickets stubSearchApi "login" 1 50).results.length :=
  search_tickets_count_min stubSearchApi "login" 1 50 (by decide)

/-- C9: tag-based placement in `categorized` (`index.ts:378-392`): a ticket
all of whose tags avoid `bug` and `feature` (case-insensitively) is kept by
the `support_questions` filter; a tag containing `bug` puts the ticket in
`bug_reports`; a tag containing `feature` puts it in `feature_requests`;
and every ticket lands in at least one bucket, though buckets may overlap. -/
theorem categorize_tag_rules (ts : List ZendeskTicket) (t : ZendeskTicket)
    (h : t ∈ ts) :
    ((∀ tag ∈ t.tags, jsIncludes (jsToLower tag) "bug" = false
        ∧ jsIncludes (jsToLower tag) "feature" = false) →
      t ∈ (categorize ts).support_questions)
    ∧ (∀ tag ∈ t.tags, jsIncludes (jsToLower tag) "bug" = true →
        t ∈ (categorize ts).bug_reports)
    ∧ (∀ tag ∈ t.tags, jsIncludes (jsToLower tag) "feature" = true →
        t ∈ (categorize ts).feature_requests)
    ∧ (t ∈ (categorize ts).bug_reports ∨ t ∈ (categorize ts).feature_requests
        ∨ t ∈ (categorize ts).support_questions) := by
  refine ⟨?_, ?_, ?_, categorize_mem_union h⟩
  · intro hall
    refine mem_support_questions h ?_
    simp only [isSupportQuestion, Bool.not_eq_true']
    rw [List.any_eq_false]
    intro tag htag
    simp [(hall tag htag).1, (hall tag htag).2]
  · intro tag htag htag_bug
    refine mem_bug_reports h ?_
    have hany : t.tags.any (fun tag => jsIncludes (jsToLower tag) "bug") = true :=
      List.any_eq_true.mpr ⟨tag, htag, htag_bug⟩
    simp [isBugReport, hany]
  · intro tag htag htag_feat
    refine mem_feature_requests h ?_
    have hany : t.tags.any (fun tag =>
        jsIncludes (jsToLower tag) "feature"
          || jsIncludes (jsToLower tag) "enhancement") = true :=
      List.any_eq_true.mpr ⟨tag, htag, by simp [htag_feat]⟩
    simp [isFeatureRequest, hany]

/-- C9, witness: the tag rules applied to the crash ticket, whose tag
`bug` places it in `bug_reports`. -/
theorem categorize_tag_rules_witness :
    ticketCrash ∈ (categorize [ticketCrash, ticketDarkMode]).bug_reports :=
  (categorize_tag_rules [ticketCrash, ticketDarkMode] ticketCrash (by decide)).2.1
    "bug" (by decide) (by decide)

/-- C10: in the `search_feature_feedback` payload (`index.ts:409-431`),
every trimmed record of `bug_reports` and `feature_requests` carries a
`priority` field, while every trimmed record of `support_questions` has
exactly the keys id, subject, status, created_at, tags — no `priority`. -/
theorem feedback_bucket_fields (ts : List ZendeskTicket)
    (r : List (String × JVal)) :
    (r ∈ (feedbackBuckets ts).bug_reports → "priority" ∈ r.map Prod.fst)
    ∧ (r ∈ (feedbackBuckets ts).feature_requests → "priority" ∈ r.map Prod.fst)
    ∧ (r ∈ (feedbackBuckets ts).support_questions →
        r.map Prod.fst = ["id", "subject", "status", "created_at", "tags"]
          ∧ "priority" ∉ r.map Prod.fst) := by
  refine ⟨?_, ?_, ?_⟩
  · intro hr
    obtain ⟨t, -, rfl⟩ := List.mem_map.mp hr
    simp [trimWithPriority]
  · intro hr
    obtain ⟨t, -, rfl⟩ := List.mem_map.mp hr
    simp [trimWithPriority]
  · intro hr
    obtain ⟨t, -, rfl⟩ := List.mem_map.mp hr
    refine ⟨by simp [trimNoPriority], by simp [trimNoPriority]⟩

/-- C10, witness: the field facts at the crash ticket's bug-report record
and the dark-mode ticket's support-question record. -/
theorem feedback_bucket_fields_witness :
    "priority" ∈ (trimWithPriority ticketCrash).map Prod.fst
      ∧ "priority" ∉ (trimNoPriority ticketDarkMode).map Prod.fst :=
  ⟨(feedback_bucket_fields [ticketCrash, ticketDarkMode]
      (trimWithPriority ticketCrash)).1 (by decide),
   ((feedback_bucket_fields [ticketCrash, ticketDarkMode]
      (trimNoPriority ticketDarkMode)).2.2 (by decide)).2⟩

end Zendesk
